import Mathlib

/-!
Verification of the location-tracker trajectory/session engine surface that is
present under `src/`: the geo primitive `haversine`
(`src/unnamed/part_008`, `src/unnamed/part_009`), the session summary
computation of `fetchHistory`
(`src/frontend/src/services/locationService.ts`), the past-session services
(`src/unnamed/part_007`) and the driver-log save path
(`src/frontend/src/services/driversLogService.ts`).

JavaScript `number`s are modelled as real numbers (`ℝ`); epoch-second
timestamps, which the code treats as exact integers, are modelled as `ℤ`.
Optional JSON fields are modelled as `Option`; JavaScript truthiness of an
optional string/number field is modelled explicitly (missing, empty string
and `0` are falsy).  Code that `throw`s is modelled as `Except String`.
-/

noncomputable section

namespace LocTrack

open Real

/-! ## Geo primitives (src/unnamed/part_008 lines 3–13, part_009 lines 57–69) -/

/-- JavaScript `Math.atan2(y, x)` on real inputs (range `(-π, π]`,
`atan2 0 0 = 0` as in JS for `+0`). -/
def atan2 (y x : ℝ) : ℝ :=
  if 0 < x then Real.arctan (y / x)
  else if x < 0 then
    (if 0 ≤ y then Real.arctan (y / x) + Real.pi else Real.arctan (y / x) - Real.pi)
  else
    (if 0 < y then Real.pi / 2 else if y < 0 then -(Real.pi / 2) else 0)

/-- `const toRad = (x) => (x * Math.PI) / 180` (local helper of `haversine`,
hoisted to top level). -/
def toRad (x : ℝ) : ℝ := x * Real.pi / 180

/-- The intermediate `a` of `haversine`:
`Math.sin(dLat/2) * Math.sin(dLat/2)
 + Math.cos(toRad(lat1)) * Math.cos(toRad(lat2))
 * Math.sin(dLon/2) * Math.sin(dLon/2)`
with `dLat = toRad(lat2 - lat1)`, `dLon = toRad(lon2 - lon1)`. -/
def haversineA (lat1 lon1 lat2 lon2 : ℝ) : ℝ :=
  Real.sin (toRad (lat2 - lat1) / 2) * Real.sin (toRad (lat2 - lat1) / 2) +
    Real.cos (toRad lat1) * Real.cos (toRad lat2) *
      Real.sin (toRad (lon2 - lon1) / 2) * Real.sin (toRad (lon2 - lon1) / 2)

/-- `haversine(lat1, lon1, lat2, lon2)` from the source:
`R = 6371000`, `c = 2 * Math.atan2(Math.sqrt(a), Math.sqrt(1 - a))`,
result `R * c`. -/
def haversine (lat1 lon1 lat2 lon2 : ℝ) : ℝ :=
  6371000 *
    (2 * atan2 (Real.sqrt (haversineA lat1 lon1 lat2 lon2))
      (Real.sqrt (1 - haversineA lat1 lon1 lat2 lon2)))

/-! ## Data model (src/frontend/src/types/api.ts, src/frontend/src/types/ui.ts) -/

/-- One element of the history API response (`HistoryApiItem`).  `lat`/`lon`
arrive as strings and are immediately `parseFloat`ed by every consumer; they
are modelled as the parsed numeric value. -/
structure HistoryApiItem where
  lat : ℝ
  lon : ℝ
  timestamp : ℤ
  timestamp_str : Option String := none
  segment_type : Option String := none
  stop_duration_seconds : Option ℝ := none
  address : Option String := none

/-- A mapped point (`Location` in ui.ts).  All optional fields kept. -/
structure Location where
  lat : ℝ
  lon : ℝ
  timestamp : ℤ
  timestamp_str : Option String := none
  segment_type : String
  stop_duration_seconds : Option ℝ := none
  address : Option String := none
  isWithinSession : Option Bool := none
  isExtendedContext : Option Bool := none

/-- The session summary (`SessionInfo` in ui.ts); only the fields the code
sets are modelled, string-formatted duplicates of numeric fields
(`startTime_str` fallbacks etc.) are presentation-layer and omitted. -/
structure SessionInfo where
  duration : ℝ
  distance : ℝ
  startTime : ℤ
  endTime : ℤ
  sessionId : String
  movingTime : ℝ
  stoppedTime : ℝ
  avgSpeed : ℝ
  totalPointsLoaded : Option ℕ := none
  sessionPointsCount : Option ℕ := none
  contextPointsCount : Option ℕ := none
  hasDataMismatch : Option Bool := none
  mismatchDetails : Option String := none

/-- A saved session summary (`PastSession` in ui.ts). -/
structure PastSession where
  id : String
  vehicleId : String
  startTime : ℤ
  endTime : ℤ
  duration : ℝ
  distance : ℝ
  movingTime : ℝ
  stoppedTime : ℝ
  avgSpeed : ℝ
  numPoints : ℕ := 0
  numStops : ℕ := 0
  startLat : ℝ := 0
  startLon : ℝ := 0
  endLat : ℝ := 0
  endLon : ℝ := 0

/-- JavaScript `s || 'moving'` on the optional `segment_type` field:
a missing or empty string is falsy and defaults to `"moving"`. -/
def orMoving : Option String → String
  | none => "moving"
  | some s => if s = "" then "moving" else s

/-- JavaScript truthiness of the optional numeric field
`stop_duration_seconds`: missing and `0` are falsy. -/
def sdTruthy : Option ℝ → Bool
  | none => false
  | some d => decide (d ≠ 0)

/-- Value of the optional `stop_duration_seconds` field, `0` when absent. -/
def sdVal : Option ℝ → ℝ
  | none => 0
  | some d => d

/-! ## fetchHistory (src/frontend/src/services/locationService.ts 49–161) -/

/-- The point mapping of `fetchHistory` (locationService.ts lines 74–82). -/
def mapPoint (item : HistoryApiItem) : Location :=
  { lat := item.lat
    lon := item.lon
    timestamp := item.timestamp
    timestamp_str := item.timestamp_str
    segment_type := orMoving item.segment_type
    stop_duration_seconds := item.stop_duration_seconds
    address := item.address }

/-- The `distance` accumulation loop of `fetchHistory` (lines 90–98):
`for (i = 1; i < points.length; i++) distance += haversine(points[i-1], points[i])`,
written as a recursion carrying the previous point (`ℝ` addition is
associative and commutative, so the grouping of the sum is immaterial). -/
def distLoop (prev : Location) : List Location → ℝ
  | [] => 0
  | p :: rest => haversine prev.lat prev.lon p.lat p.lon + distLoop p rest

/-- `distance` over the whole mapped point list. -/
def sessionDistance : List Location → ℝ
  | [] => 0
  | p :: rest => distLoop p rest

/-- The `movingTime`/`stoppedTime`/`movingDistance` loop of `fetchHistory`
(lines 103–130) for indices `i ≥ 1`, carrying `points[i-1]` as `prev`;
returns `(movingTime, stoppedTime, movingDistance)`.
Loop body: if the point is `'stopped'` with a truthy `stop_duration_seconds`,
add it (in minutes) to `stoppedTime`; otherwise if the previous and current
points are both `'moving'`, add the pair's time difference to `movingTime`
and its haversine distance to `movingDistance`. -/
def calcTimesAux (prev : Location) : List Location → ℝ × ℝ × ℝ
  | [] => (0, 0, 0)
  | p :: rest =>
    let t := calcTimesAux p rest
    if (p.segment_type == "stopped") && sdTruthy p.stop_duration_seconds then
      (t.1, t.2.1 + sdVal p.stop_duration_seconds / 60, t.2.2)
    else if (prev.segment_type == "moving") && (p.segment_type == "moving") then
      (t.1 + ((p.timestamp - prev.timestamp : ℤ) : ℝ) / 60, t.2.1,
        t.2.2 + haversine prev.lat prev.lon p.lat p.lon)
    else t

/-- The same loop including the `i = 0` iteration, which has no previous
point and can only hit the `stopped` branch. -/
def calcTimes : List Location → ℝ × ℝ × ℝ
  | [] => (0, 0, 0)
  | p :: rest =>
    let t := calcTimesAux p rest
    if (p.segment_type == "stopped") && sdTruthy p.stop_duration_seconds then
      (t.1, t.2.1 + sdVal p.stop_duration_seconds / 60, t.2.2)
    else t

/-- First timestamp of a point list (`points[0].timestamp`; `0` for `[]`,
unused there). -/
def headTs : List Location → ℤ
  | [] => 0
  | p :: _ => p.timestamp

/-- Last timestamp of a point list (`points[points.length - 1].timestamp`). -/
def lastTs : List Location → ℤ
  | [] => 0
  | [p] => p.timestamp
  | _ :: q :: rest => lastTs (q :: rest)

/-- The session summary `fetchHistory` builds for a point list of length > 1
(lines 84–151).  `start`/`end` are `Date`s from `timestamp * 1000` ms;
`duration = (end - start) / (1000 * 60)` minutes;
`avgSpeed = movingTime > 0 ? (movingDistance / 1000) / (movingTime / 60) : 0`. -/
def sessionInfoOf (points : List Location) : SessionInfo :=
  let startMs : ℤ := headTs points * 1000
  let endMs : ℤ := lastTs points * 1000
  let t := calcTimes points
  { duration := ((endMs - startMs : ℤ) : ℝ) / (1000 * 60)
    distance := sessionDistance points
    startTime := headTs points
    endTime := lastTs points
    sessionId := "session_" ++ toString startMs
    movingTime := t.1
    stoppedTime := t.2.1
    avgSpeed := if 0 < t.1 then (t.2.2 / 1000) / (t.1 / 60) else 0 }

/-- `fetchHistory` after the response JSON has been parsed: map the items,
and if more than one point was returned attach the session summary,
otherwise `sessionInfo` is `null` (lines 74–156). -/
def fetchHistoryProcess (data : List HistoryApiItem) :
    List Location × Option SessionInfo :=
  let points := data.map mapPoint
  if 1 < points.length then (points, some (sessionInfoOf points))
  else (points, none)

/-! ## Past sessions (src/unnamed/part_007) -/

/-- Shape of the scan-sessions HTTP response as seen by
`fetchPastSessions`: HTTP status/ok flag plus the parsed body's optional
`sessions` array (`none` models a body without a `sessions` array). -/
structure ScanResponse where
  ok : Bool
  status : ℕ
  sessions : Option (List PastSession) := none

/-- Response handling of `fetchPastSessions` (part_007 lines 19–39): a 404
means "no sessions found", which is returned as the empty list, not an
error; any other non-ok status is an error; an ok body yields its
`sessions` array, or `[]` when the body has none. -/
def fetchPastSessionsProcess (r : ScanResponse) : Except String (List PastSession) :=
  if r.ok = false then
    if r.status = 404 then Except.ok [] else Except.error "Failed to fetch past sessions"
  else
    match r.sessions with
    | some s => Except.ok s
    | none => Except.ok []

/-- The point mapping of `loadPastSession` (part_007 lines 78–88): same as
`fetchHistory`'s but tagging every point as within the session. -/
def mapPointLoad (item : HistoryApiItem) : Location :=
  { lat := item.lat
    lon := item.lon
    timestamp := item.timestamp
    timestamp_str := item.timestamp_str
    segment_type := orMoving item.segment_type
    stop_duration_seconds := item.stop_duration_seconds
    address := item.address
    isWithinSession := some true
    isExtendedContext := some false }

/-- Last timestamp of the raw item list. -/
def itemLastTs : List HistoryApiItem → ℤ
  | [] => 0
  | [p] => p.timestamp
  | _ :: q :: rest => itemLastTs (q :: rest)

/-- The mismatch message of `loadPastSession` (line 106); the
locale-formatted date is modelled by the numeric end timestamp. -/
def mismatchMessage (session : PastSession) (pts : List Location) : String :=
  "Session metadata indicates end at " ++ toString session.endTime ++
    ", but last GPS point is " ++
    toString (round (((session.endTime - lastTs pts : ℤ) : ℝ) / 60)) ++
    " minutes earlier."

/-- `loadPastSession` after the response JSON has been parsed (part_007
lines 62–112): an empty point list is an error; otherwise look for a point
whose timestamp equals the saved session's `endTime` (`finalPoint`), map
all points, and return them with a summary taken from the saved metadata,
carrying `hasDataMismatch = !finalPoint` and a mismatch message exactly
when no such final point exists. -/
def loadPastSessionProcess (session : PastSession) (data : List HistoryApiItem) :
    Except String (List Location × SessionInfo) :=
  if data.length = 0 then Except.error "No location data found for this session"
  else
    let finalPoint := data.find? (fun p => p.timestamp == session.endTime)
    let allPoints := data.map mapPointLoad
    Except.ok (allPoints,
      { duration := session.duration
        distance := session.distance
        startTime := session.startTime
        endTime := session.endTime
        sessionId := session.id
        movingTime := session.movingTime
        stoppedTime := session.stoppedTime
        avgSpeed := session.avgSpeed
        totalPointsLoaded := some allPoints.length
        sessionPointsCount := some allPoints.length
        contextPointsCount := some 0
        hasDataMismatch := some finalPoint.isNone
        mismatchDetails :=
          if finalPoint.isSome then none
          else some (mismatchMessage session allPoints) })

/-! ## Driver-log save (src/frontend/src/services/driversLogService.ts 24–109) -/

/-- A persisted trip record (`TripRecord`/`DriversLogEntry`): a saved
annotation over a `[startTime, endTime]` window for a vehicle. -/
structure TripRecord where
  id : String
  vehicleId : String
  startTime : ℤ
  endTime : ℤ
  purpose : String := ""
  notes : String := ""

/-- Non-empty overlap of two `[startTime, endTime]` windows. -/
def overlapsB (a b : TripRecord) : Bool :=
  decide (a.startTime ≤ b.endTime) && decide (b.startTime ≤ a.endTime)

/-- Shape of the drivers-log save HTTP response as seen by `saveDriverLog`:
status/ok plus the conflict body's optional `message` and `overlappingId`. -/
structure SaveResponse where
  status : ℕ
  ok : Bool
  message : Option String := none
  overlappingId : Option String := none

/-- Result of `saveDriverLog`. -/
structure SaveResult where
  success : Bool
  error : Option String := none
  overlappingId : Option String := none

/-- JavaScript `errorData.message || default` (missing or empty is falsy). -/
def orDefaultMsg (m : Option String) (d : String) : String :=
  match m with
  | none => d
  | some s => if s = "" then d else s

/-- Response handling of `saveDriverLog` (driversLogService.ts lines 66–100):
a 409 conflict yields `success: false` with the server's message and the
overlapping record's id; any other non-ok response yields `success: false`;
an ok response yields `success: true`. -/
def saveDriverLogProcess (r : SaveResponse) : SaveResult :=
  if r.status = 409 then
    { success := false
      error := some (orDefaultMsg r.message
        "This session has already been saved to a driver's log")
      overlappingId := r.overlappingId }
  else if r.ok = false then
    { success := false, error := some "Failed to save driver's log" }
  else
    { success := true }

/-- Modelled from the spec: the backend drivers-log save handler is not under
`src/` (only its serverless declaration and this frontend caller are).  Per
§4.7 and §7 it compares the candidate's `[startTime, endTime]` window with
every existing `TripRecord` of the same vehicle; on any non-empty overlap it
answers 409 carrying the overlapping record's id and writes nothing, and
otherwise it persists the record and answers ok. -/
def backendSaveTrip (store : List TripRecord) (rec : TripRecord) :
    List TripRecord × SaveResponse :=
  match store.find? (fun r => (r.vehicleId == rec.vehicleId) && overlapsB r rec) with
  | some r =>
    (store, { status := 409, ok := false
              message := some "Session overlaps an existing trip record"
              overlappingId := some r.id })
  | none => (store ++ [rec], { status := 200, ok := true })

/-! ## Reference formulations used by the claims -/

/-- Sum of `f` over consecutive pairs of a list. -/
def zipPairSum (f : Location → Location → ℝ) (pts : List Location) : ℝ :=
  ((pts.zip pts.tail).map fun pq => f pq.1 pq.2).sum

/-- Sum of consecutive-fix haversine distances over all consecutive pairs. -/
def allZipDistance : List Location → ℝ :=
  zipPairSum fun p q => haversine p.lat p.lon q.lat q.lon

/-- Sum of consecutive-fix haversine distances restricted to pairs inside
moving segments (both endpoints labelled `"moving"`), following the spec's
words "sum of consecutive-fix distances across moving segments". -/
def movingZipDistance : List Location → ℝ :=
  zipPairSum fun p q =>
    if p.segment_type = "moving" ∧ q.segment_type = "moving" then
      haversine p.lat p.lon q.lat q.lon
    else 0

/-- Sum of the stop durations (minutes) of the stopped points; each stopped
point is the phantom-cleaned single representative of one stopped segment
and carries that segment's `stop_duration_seconds`. -/
def stoppedSegmentsTime (pts : List Location) : ℝ :=
  (((pts.filter fun p => p.segment_type == "stopped").map
    fun p => sdVal p.stop_duration_seconds) |>.sum) / 60

/-- Maximal runs of consecutive points sharing a `segment_type`
(the spec's Segments: "a maximal contiguous run of fixes sharing a
classification"). -/
def runs : List Location → List (List Location)
  | [] => []
  | [p] => [[p]]
  | p :: q :: rest =>
    match runs (q :: rest) with
    | [] => [[p]]
    | s :: ss =>
      if p.segment_type = q.segment_type then (p :: s) :: ss
      else [p] :: s :: ss

/-- `segment_type` of a run (of its first point). -/
def headSeg : List Location → String
  | [] => ""
  | p :: _ => p.segment_type

/-- Sum of the durations (minutes, last fix minus first fix) of the runs
labelled `"moving"` among a list of runs. -/
def runsFilteredSum (rs : List (List Location)) : ℝ :=
  ((rs.filter fun r => headSeg r == "moving").map
    fun r => ((lastTs r - headTs r : ℤ) : ℝ) / 60).sum

/-- Sum of the durations (minutes, last fix minus first fix) of the moving
segments, following the spec's words "sums of segment durations by type". -/
def movingRunsTime (pts : List Location) : ℝ :=
  runsFilteredSum (runs pts)

/-- Sum of the pair time differences (minutes) over consecutive pairs whose
endpoints are both labelled `"moving"`. -/
def movingZipTime : List Location → ℝ :=
  zipPairSum fun p q =>
    if p.segment_type = "moving" ∧ q.segment_type = "moving" then
      ((q.timestamp - p.timestamp : ℤ) : ℝ) / 60
    else 0

/-! ## Concrete data for witnesses and counterexamples -/

/-- A `"moving"` fix at the origin, epoch second 0. -/
def itemMoving00 : HistoryApiItem :=
  { lat := 0, lon := 0, timestamp := 0, segment_type := some "moving" }

/-- A `"moving"` fix at the origin, epoch second 60. -/
def itemMoving60 : HistoryApiItem :=
  { lat := 0, lon := 0, timestamp := 60, segment_type := some "moving" }

/-- A `"stopped"` fix at latitude 90, epoch second 60, with a 300 s stop. -/
def itemStopped90 : HistoryApiItem :=
  { lat := 90, lon := 0, timestamp := 60, segment_type := some "stopped",
    stop_duration_seconds := some 300 }

/-- A fix whose stored record lacks a `segment_type` label. -/
def itemUnlabeled : HistoryApiItem := { lat := 0, lon := 0, timestamp := 0 }

/-- A two-point, time-ordered history: one moving fix, then a distant
stopped fix. -/
def cexData : List HistoryApiItem := [itemMoving00, itemStopped90]

/-- A two-point, time-ordered history of two moving fixes a minute apart. -/
def movData : List HistoryApiItem := [itemMoving00, itemMoving60]

/-- A concrete saved session whose metadata ends at epoch second 60. -/
def wSession : PastSession :=
  { id := "s1", vehicleId := "v1", startTime := 0, endTime := 60,
    duration := 1, distance := 100, movingTime := 1, stoppedTime := 5,
    avgSpeed := 6 }

/-- The summary `loadPastSession` builds for `wSession` over `cexData`. -/
def wLoadInfo : SessionInfo :=
  { duration := 1, distance := 100, startTime := 0, endTime := 60,
    sessionId := "s1", movingTime := 1, stoppedTime := 5, avgSpeed := 6,
    totalPointsLoaded := some 2, sessionPointsCount := some 2,
    contextPointsCount := some 0, hasDataMismatch := some false,
    mismatchDetails := none }

/-- A saved trip record for vehicle `"v1"` over `[0, 100]`. -/
def tripA : TripRecord :=
  { id := "t1", vehicleId := "v1", startTime := 0, endTime := 100 }

/-- A candidate trip record for vehicle `"v1"` over the overlapping window
`[50, 150]`. -/
def tripNew : TripRecord :=
  { id := "t2", vehicleId := "v1", startTime := 50, endTime := 150 }

/-! ## Helper lemmas -/

lemma zipPairSum_nil (f : Location → Location → ℝ) : zipPairSum f [] = 0 := by
  simp [zipPairSum]

lemma zipPairSum_single (f : Location → Location → ℝ) (a : Location) :
    zipPairSum f [a] = 0 := by
  simp [zipPairSum]

lemma zipPairSum_cons (f : Location → Location → ℝ) (a b : Location)
    (l : List Location) :
    zipPairSum f (a :: b :: l) = f a b + zipPairSum f (b :: l) := by
  simp [zipPairSum]

lemma sdVal_of_not_truthy {x : Option ℝ} (h : sdTruthy x = false) : sdVal x = 0 := by
  cases x with
  | none => rfl
  | some d =>
    simp only [sdTruthy, decide_eq_false_iff_not, not_not] at h
    simpa [sdVal] using h

lemma toRad_neg_swap (a b : ℝ) : toRad (a - b) = -toRad (b - a) := by
  unfold toRad; ring

lemma haversineA_symm (lat1 lon1 lat2 lon2 : ℝ) :
    haversineA lat1 lon1 lat2 lon2 = haversineA lat2 lon2 lat1 lon1 := by
  unfold haversineA
  have hl : Real.sin (toRad (lat1 - lat2) / 2) = -Real.sin (toRad (lat2 - lat1) / 2) := by
    rw [toRad_neg_swap, neg_div, Real.sin_neg]
  have hn : Real.sin (toRad (lon1 - lon2) / 2) = -Real.sin (toRad (lon2 - lon1) / 2) := by
    rw [toRad_neg_swap, neg_div, Real.sin_neg]
  rw [hl, hn]
  ring

lemma toRad_zero : toRad 0 = 0 := by unfold toRad; ring

lemma haversineA_self (lat lon : ℝ) : haversineA lat lon lat lon = 0 := by
  unfold haversineA
  rw [sub_self, sub_self, toRad_zero]
  norm_num

lemma atan2_zero_one : atan2 0 1 = 0 := by
  unfold atan2
  rw [if_pos (by norm_num : (0:ℝ) < 1)]
  norm_num

lemma haversine_self (lat lon : ℝ) : haversine lat lon lat lon = 0 := by
  unfold haversine
  rw [haversineA_self]
  norm_num [atan2_zero_one]

lemma atan2_nonneg {y x : ℝ} (hy : 0 ≤ y) (hx : 0 ≤ x) : 0 ≤ atan2 y x := by
  unfold atan2
  rcases eq_or_lt_of_le hx with hx0 | hxpos
  · rw [if_neg (by rw [← hx0]; exact lt_irrefl 0), if_neg (by rw [← hx0]; exact lt_irrefl 0)]
    rcases eq_or_lt_of_le hy with hy0 | hypos
    · rw [if_neg (by rw [← hy0]; exact lt_irrefl 0), if_neg (by rw [← hy0]; exact lt_irrefl 0)]
    · rw [if_pos hypos]
      linarith [Real.pi_pos]
  · rw [if_pos hxpos]
    exact le_trans (by rw [Real.arctan_zero]) <|
      Real.arctan_strictMono.monotone (div_nonneg hy hxpos.le)

/-- The intermediate `a` lies in `[0, 1]` for all real inputs, so both square
roots receive a value in their domain. -/
lemma haversineA_mem_unit (lat1 lon1 lat2 lon2 : ℝ) :
    0 ≤ haversineA lat1 lon1 lat2 lon2 ∧ haversineA lat1 lon1 lat2 lon2 ≤ 1 := by
  unfold haversineA
  have hsub : toRad (lat2 - lat1) = toRad lat2 - toRad lat1 := by unfold toRad; ring
  rw [hsub]
  set p := toRad lat1 with hp
  set q := toRad lat2 with hq
  set w := toRad (lon2 - lon1) with hw
  have h1 : Real.sin ((q - p) / 2) * Real.sin ((q - p) / 2) =
      (1 - Real.cos (q - p)) / 2 := by
    have := Real.sin_sq_eq_half_sub ((q - p) / 2)
    have h2 : 2 * ((q - p) / 2) = q - p := by ring
    rw [h2] at this
    nlinarith [this]
  have h2 : Real.sin (w / 2) * Real.sin (w / 2) = (1 - Real.cos w) / 2 := by
    have := Real.sin_sq_eq_half_sub (w / 2)
    have h3 : 2 * (w / 2) = w := by ring
    rw [h3] at this
    nlinarith [this]
  have h3 : Real.cos p * Real.cos q =
      (Real.cos (p + q) + Real.cos (p - q)) / 2 := by
    have := Real.cos_add_cos (p + q) (p - q)
    have ha : (p + q + (p - q)) / 2 = p := by ring
    have hb : (p + q - (p - q)) / 2 = q := by ring
    rw [ha, hb] at this
    linarith
  have hcos1 : Real.cos (q - p) = Real.cos (p - q) := by
    rw [show q - p = -(p - q) by ring, Real.cos_neg]
  rw [h1, h3, hcos1]
  set u := Real.cos (p - q) with hu
  set v := Real.cos (p + q) with hv
  set s := Real.sin (w / 2) * Real.sin (w / 2) with hs
  have hs0 : 0 ≤ s := mul_self_nonneg _
  have hs1 : s ≤ 1 := by
    rw [h2]
    have := Real.neg_one_le_cos w
    linarith
  have hu1 : -1 ≤ u := Real.neg_one_le_cos _
  have hu2 : u ≤ 1 := Real.cos_le_one _
  have hv1 : -1 ≤ v := Real.neg_one_le_cos _
  have hv2 : v ≤ 1 := Real.cos_le_one _
  constructor
  · nlinarith [mul_nonneg (by linarith : (0:ℝ) ≤ 1 - u) (by linarith : (0:ℝ) ≤ 1 - s),
      mul_nonneg (by linarith : (0:ℝ) ≤ 1 + v) hs0]
  · nlinarith [mul_nonneg (by linarith : (0:ℝ) ≤ 1 + u) (by linarith : (0:ℝ) ≤ 1 - s),
      mul_nonneg (by linarith : (0:ℝ) ≤ 1 - v) hs0]

lemma distLoop_eq_zip : ∀ (rest : List Location) (p : Location),
    distLoop p rest = allZipDistance (p :: rest) := by
  intro rest
  induction rest with
  | nil => intro p; simp [distLoop, allZipDistance, zipPairSum_single]
  | cons q rest ih =>
    intro p
    rw [distLoop, ih q]
    rw [allZipDistance, zipPairSum_cons]

lemma sessionDistance_eq_zip (pts : List Location) :
    sessionDistance pts = allZipDistance pts := by
  cases pts with
  | nil => simp [sessionDistance, allZipDistance, zipPairSum_nil]
  | cons p rest => rw [sessionDistance, distLoop_eq_zip]

lemma seg_stopped_of_cond {p : Location}
    (h : ((p.segment_type == "stopped") && sdTruthy p.stop_duration_seconds) = true) :
    p.segment_type = "stopped" ∧ sdTruthy p.stop_duration_seconds = true := by
  rcases Bool.and_eq_true .. |>.mp h with ⟨h1, h2⟩
  exact ⟨by simpa using h1, h2⟩

lemma calcTimesAux_fst : ∀ (rest : List Location) (prev : Location),
    (calcTimesAux prev rest).1 = movingZipTime (prev :: rest) := by
  intro rest
  induction rest with
  | nil => intro prev; simp [calcTimesAux, movingZipTime, zipPairSum_single]
  | cons p rest ih =>
    intro prev
    rw [movingZipTime, zipPairSum_cons, ← movingZipTime, ← ih p]
    rw [calcTimesAux]
    by_cases h1 : ((p.segment_type == "stopped") && sdTruthy p.stop_duration_seconds) = true
    · rcases seg_stopped_of_cond h1 with ⟨hseg, _⟩
      rw [if_pos h1]
      simp [hseg]
    · rw [if_neg h1]
      by_cases h2 : ((prev.segment_type == "moving") && (p.segment_type == "moving")) = true
      · rcases Bool.and_eq_true .. |>.mp h2 with ⟨g1, g2⟩
        rw [if_pos h2]
        simp only [beq_iff_eq] at g1 g2
        simp [g1, g2]
        try ring
      · rw [if_neg h2]
        have : ¬(prev.segment_type = "moving" ∧ p.segment_type = "moving") := by
          intro ⟨a, b⟩
          exact h2 (by simp [a, b])
        simp [this]

lemma calcTimesAux_dist : ∀ (rest : List Location) (prev : Location),
    (calcTimesAux prev rest).2.2 = movingZipDistance (prev :: rest) := by
  intro rest
  induction rest with
  | nil => intro prev; simp [calcTimesAux, movingZipDistance, zipPairSum_single]
  | cons p rest ih =>
    intro prev
    rw [movingZipDistance, zipPairSum_cons, ← movingZipDistance, ← ih p]
    rw [calcTimesAux]
    by_cases h1 : ((p.segment_type == "stopped") && sdTruthy p.stop_duration_seconds) = true
    · rcases seg_stopped_of_cond h1 with ⟨hseg, _⟩
      rw [if_pos h1]
      simp [hseg]
    · rw [if_neg h1]
      by_cases h2 : ((prev.segment_type == "moving") && (p.segment_type == "moving")) = true
      · rcases Bool.and_eq_true .. |>.mp h2 with ⟨g1, g2⟩
        rw [if_pos h2]
        simp only [beq_iff_eq] at g1 g2
        simp [g1, g2]
        try ring
      · rw [if_neg h2]
        have : ¬(prev.segment_type = "moving" ∧ p.segment_type = "moving") := by
          intro ⟨a, b⟩
          exact h2 (by simp [a, b])
        simp [this]

lemma stoppedSegmentsTime_nil : stoppedSegmentsTime [] = 0 := by
  simp [stoppedSegmentsTime]

lemma stoppedSegmentsTime_cons (p : Location) (l : List Location) :
    stoppedSegmentsTime (p :: l) =
      (if p.segment_type == "stopped" then sdVal p.stop_duration_seconds / 60 else 0) +
        stoppedSegmentsTime l := by
  unfold stoppedSegmentsTime
  rw [List.filter_cons]
  by_cases h : (p.segment_type == "stopped") = true
  · rw [if_pos h, if_pos h, List.map_cons, List.sum_cons]
    ring
  · rw [if_neg h, if_neg h]
    ring

lemma calcTimesAux_stopped : ∀ (rest : List Location) (prev : Location),
    (calcTimesAux prev rest).2.1 = stoppedSegmentsTime rest := by
  intro rest
  induction rest with
  | nil => intro prev; simp [calcTimesAux, stoppedSegmentsTime_nil]
  | cons p rest ih =>
    intro prev
    rw [stoppedSegmentsTime_cons, ← ih p]
    rw [calcTimesAux]
    by_cases h1 : ((p.segment_type == "stopped") && sdTruthy p.stop_duration_seconds) = true
    · rcases seg_stopped_of_cond h1 with ⟨hseg, _⟩
      rw [if_pos h1]
      simp [hseg]
      ring
    · rw [if_neg h1]
      have hcase : ¬p.segment_type = "stopped" ∨ sdVal p.stop_duration_seconds = 0 := by
        by_cases hseg : p.segment_type = "stopped"
        · refine Or.inr (sdVal_of_not_truthy ?_)
          cases hv : sdTruthy p.stop_duration_seconds
          · rfl
          · exact absurd (by simp [hseg, hv]) h1
        · exact Or.inl hseg
      rcases hcase with hseg | hz
      · by_cases h2 : ((prev.segment_type == "moving") && (p.segment_type == "moving")) = true
        · rw [if_pos h2]; simp [hseg]
        · rw [if_neg h2]; simp [hseg]
      · by_cases h2 : ((prev.segment_type == "moving") && (p.segment_type == "moving")) = true
        · rw [if_pos h2]; simp [hz]
        · rw [if_neg h2]; simp [hz]

lemma calcTimes_fst (pts : List Location) :
    (calcTimes pts).1 = movingZipTime pts := by
  cases pts with
  | nil => simp [calcTimes, movingZipTime, zipPairSum_nil]
  | cons p rest =>
    rw [calcTimes, ← calcTimesAux_fst rest p]
    by_cases h1 : ((p.segment_type == "stopped") && sdTruthy p.stop_duration_seconds) = true
    · rw [if_pos h1]
    · rw [if_neg h1]

lemma calcTimes_dist (pts : List Location) :
    (calcTimes pts).2.2 = movingZipDistance pts := by
  cases pts with
  | nil => simp [calcTimes, movingZipDistance, zipPairSum_nil]
  | cons p rest =>
    rw [calcTimes, ← calcTimesAux_dist rest p]
    by_cases h1 : ((p.segment_type == "stopped") && sdTruthy p.stop_duration_seconds) = true
    · rw [if_pos h1]
    · rw [if_neg h1]

lemma calcTimes_stopped (pts : List Location) :
    (calcTimes pts).2.1 = stoppedSegmentsTime pts := by
  cases pts with
  | nil => simp [calcTimes, stoppedSegmentsTime_nil]
  | cons p rest =>
    rw [calcTimes]
    by_cases h1 : ((p.segment_type == "stopped") && sdTruthy p.stop_duration_seconds) = true
    · rcases seg_stopped_of_cond h1 with ⟨hseg, _⟩
      rw [if_pos h1]
      rw [stoppedSegmentsTime_cons]
      simp only [calcTimesAux_stopped rest p]
      simp [hseg]
      ring
    · rw [if_neg h1]
      rw [stoppedSegmentsTime_cons]
      simp only [calcTimesAux_stopped rest p]
      have hcase : ¬p.segment_type = "stopped" ∨ sdVal p.stop_duration_seconds = 0 := by
        by_cases hseg : p.segment_type = "stopped"
        · refine Or.inr (sdVal_of_not_truthy ?_)
          cases hv : sdTruthy p.stop_duration_seconds
          · rfl
          · exact absurd (by simp [hseg, hv]) h1
        · exact Or.inl hseg
      rcases hcase with hseg | hz
      · simp [hseg]
      · simp [hz]

lemma runsFilteredSum_cons (r : List Location) (rs : List (List Location)) :
    runsFilteredSum (r :: rs) =
      (if headSeg r == "moving" then ((lastTs r - headTs r : ℤ) : ℝ) / 60 else 0) +
        runsFilteredSum rs := by
  unfold runsFilteredSum
  rw [List.filter_cons]
  by_cases h : (headSeg r == "moving") = true
  · rw [if_pos h, if_pos h, List.map_cons, List.sum_cons]
  · rw [if_neg h, if_neg h, zero_add]

lemma runs_cons_shape : ∀ (rest : List Location) (q : Location),
    ∃ s ss, runs (q :: rest) = (q :: s) :: ss := by
  intro rest
  induction rest with
  | nil => intro q; exact ⟨[], [], rfl⟩
  | cons r rest ih =>
    intro q
    obtain ⟨s, ss, h⟩ := ih r
    simp only [runs, h]
    by_cases hseg : q.segment_type = r.segment_type
    · rw [if_pos hseg]
      exact ⟨r :: s, ss, rfl⟩
    · rw [if_neg hseg]
      exact ⟨[], (r :: s) :: ss, rfl⟩

lemma movingZipTime_eq_runs : ∀ pts : List Location,
    movingZipTime pts = movingRunsTime pts := by
  intro pts
  induction pts with
  | nil => simp [movingZipTime, zipPairSum_nil, movingRunsTime, runs, runsFilteredSum]
  | cons p rest ih =>
    cases rest with
    | nil =>
      rw [movingZipTime, zipPairSum_single, movingRunsTime]
      show (0 : ℝ) = runsFilteredSum [[p]]
      rw [runsFilteredSum_cons]
      unfold runsFilteredSum
      simp [headSeg, lastTs, headTs]
    | cons q rest2 =>
      obtain ⟨s, ss, hsh⟩ := runs_cons_shape rest2 q
      rw [movingZipTime, zipPairSum_cons, ← movingZipTime, ih]
      rw [movingRunsTime, hsh, runsFilteredSum_cons]
      rw [movingRunsTime]
      simp only [runs, hsh]
      by_cases hseg : p.segment_type = q.segment_type
      · rw [if_pos hseg, runsFilteredSum_cons]
        by_cases hmov : p.segment_type = "moving"
        · have hqm : q.segment_type = "moving" := hseg.symm.trans hmov
          rw [if_pos ⟨hmov, hqm⟩, if_pos (by simp [headSeg]; exact hqm),
            if_pos (by simp [headSeg]; exact hmov)]
          show ((q.timestamp - p.timestamp : ℤ) : ℝ) / 60 +
              (((lastTs (q :: s) - headTs (q :: s) : ℤ) : ℝ) / 60 + runsFilteredSum ss) =
              ((lastTs (p :: q :: s) - headTs (p :: q :: s) : ℤ) : ℝ) / 60 +
                runsFilteredSum ss
          have hl : lastTs (p :: q :: s) = lastTs (q :: s) := rfl
          rw [hl, headTs, headTs]
          push_cast
          ring
        · have hqm : ¬q.segment_type = "moving" := fun h => hmov (hseg.trans h)
          rw [if_neg (fun hand => hmov hand.1),
            if_neg (show ¬(headSeg (q :: s) == "moving") = true by
              simp [headSeg]; exact hqm),
            if_neg (show ¬(headSeg (p :: q :: s) == "moving") = true by
              simp [headSeg]; exact hmov)]
          simp
      · rw [if_neg hseg, runsFilteredSum_cons, runsFilteredSum_cons]
        have hnm : ¬(p.segment_type = "moving" ∧ q.segment_type = "moving") := by
          intro ⟨a, b⟩
          exact hseg (a.trans b.symm)
        rw [if_neg hnm]
        have h0 : ((lastTs [p] - headTs [p] : ℤ) : ℝ) / 60 = 0 := by
          have h1 : lastTs [p] = p.timestamp := rfl
          have h2 : headTs [p] = p.timestamp := rfl
          rw [h1, h2, sub_self]
          norm_num
        rw [h0, ite_self]

lemma itemLastTs_cons_cons (x y : HistoryApiItem) (l : List HistoryApiItem) :
    itemLastTs (x :: y :: l) = itemLastTs (y :: l) := rfl

lemma itemLastTs_mem : ∀ (l : List HistoryApiItem), l ≠ [] →
    ∃ p ∈ l, p.timestamp = itemLastTs l := by
  intro l
  induction l with
  | nil => intro h; exact absurd rfl h
  | cons x rest ih =>
    intro _
    cases rest with
    | nil => exact ⟨x, by simp, rfl⟩
    | cons y rest2 =>
      obtain ⟨p, hmem, hts⟩ := ih (by simp)
      exact ⟨p, List.mem_cons_of_mem x hmem, by rw [itemLastTs_cons_cons]; exact hts⟩

lemma le_itemLastTs : ∀ (l : List HistoryApiItem),
    l.Pairwise (fun a b => a.timestamp < b.timestamp) →
    ∀ p ∈ l, p.timestamp ≤ itemLastTs l := by
  intro l
  induction l with
  | nil => intro _ p hp; exact absurd hp (List.not_mem_nil p)
  | cons x rest ih =>
    intro hpw p hp
    rcases List.pairwise_cons.mp hpw with ⟨hlt, hpw2⟩
    rcases List.mem_cons.mp hp with rfl | hmem
    · cases rest with
      | nil => exact le_refl _
      | cons y rest2 =>
        obtain ⟨q, hq, hqts⟩ := itemLastTs_mem (y :: rest2) (by simp)
        rw [itemLastTs_cons_cons, ← hqts]
        exact (hlt q hq).le
    · cases rest with
      | nil => exact absurd hmem (List.not_mem_nil p)
      | cons y rest2 =>
        rw [itemLastTs_cons_cons]
        exact ih hpw2 p hmem

lemma fetchHistoryProcess_eq (data : List HistoryApiItem) :
    fetchHistoryProcess data =
      if 1 < (data.map mapPoint).length
      then (data.map mapPoint, some (sessionInfoOf (data.map mapPoint)))
      else (data.map mapPoint, none) := rfl

lemma fetchHistoryProcess_fst (data : List HistoryApiItem) :
    (fetchHistoryProcess data).1 = data.map mapPoint := by
  rw [fetchHistoryProcess_eq]
  split_ifs <;> rfl

lemma fetchHistoryProcess_some {data : List HistoryApiItem} {info : SessionInfo}
    (h : (fetchHistoryProcess data).2 = some info) :
    info = sessionInfoOf (data.map mapPoint) := by
  rw [fetchHistoryProcess_eq] at h
  split_ifs at h with hl
  exact (Option.some_inj.mp h).symm

lemma fetchHistoryProcess_snd_of_long {data : List HistoryApiItem}
    (h : 1 < data.length) :
    (fetchHistoryProcess data).2 = some (sessionInfoOf (data.map mapPoint)) := by
  rw [fetchHistoryProcess_eq, if_pos (by simpa using h)]

lemma sessionInfoOf_distance (pts : List Location) :
    (sessionInfoOf pts).distance = sessionDistance pts := rfl

lemma sessionInfoOf_movingTime (pts : List Location) :
    (sessionInfoOf pts).movingTime = (calcTimes pts).1 := rfl

lemma sessionInfoOf_stoppedTime (pts : List Location) :
    (sessionInfoOf pts).stoppedTime = (calcTimes pts).2.1 := rfl

lemma sessionInfoOf_avgSpeed (pts : List Location) :
    (sessionInfoOf pts).avgSpeed =
      if 0 < (calcTimes pts).1
      then ((calcTimes pts).2.2 / 1000) / ((calcTimes pts).1 / 60)
      else 0 := rfl

lemma loadPastSessionProcess_ok {session : PastSession}
    {data : List HistoryApiItem} {pts : List Location} {info : SessionInfo}
    (h : loadPastSessionProcess session data = Except.ok (pts, info)) :
    pts = data.map mapPointLoad := by
  unfold loadPastSessionProcess at h
  split_ifs at h with hl
  injection h with h1
  exact (congrArg Prod.fst h1).symm

lemma orMoving_ne_empty (x : Option String) : ¬ orMoving x = "" := by
  cases x with
  | none => simp [orMoving]
  | some s =>
    by_cases h : s = ""
    · simp [orMoving, h]
    · simp [orMoving, h]

lemma mapPoint_segment (i : HistoryApiItem) :
    (mapPoint i).segment_type = orMoving i.segment_type := rfl

lemma mapPointLoad_segment (i : HistoryApiItem) :
    (mapPointLoad i).segment_type = orMoving i.segment_type := rfl

lemma haversineA_eval_ninety : haversineA 0 0 90 0 = 1 / 2 := by
  unfold haversineA
  have h1 : toRad ((90 : ℝ) - 0) / 2 = Real.pi / 4 := by unfold toRad; ring
  have h2 : toRad ((0 : ℝ) - 0) / 2 = 0 := by unfold toRad; ring
  rw [h1, h2, Real.sin_pi_div_four, Real.sin_zero, mul_zero, add_zero]
  rw [div_mul_div_comm, Real.mul_self_sqrt (by norm_num : (0:ℝ) ≤ 2)]
  norm_num

lemma haversine_eval_ninety : haversine 0 0 90 0 = 6371000 * (Real.pi / 2) := by
  unfold haversine
  rw [haversineA_eval_ninety]
  have h1 : (1 : ℝ) - 1 / 2 = 1 / 2 := by norm_num
  rw [h1]
  have hpos : 0 < Real.sqrt (1 / 2) := Real.sqrt_pos.mpr (by norm_num)
  unfold atan2
  rw [if_pos hpos, div_self hpos.ne']
  rw [Real.arctan_one]
  ring

lemma loadPastSessionProcess_eq_of_ne {session : PastSession}
    {data : List HistoryApiItem} (hl : ¬ data.length = 0) :
    loadPastSessionProcess session data = Except.ok (data.map mapPointLoad,
      { duration := session.duration
        distance := session.distance
        startTime := session.startTime
        endTime := session.endTime
        sessionId := session.id
        movingTime := session.movingTime
        stoppedTime := session.stoppedTime
        avgSpeed := session.avgSpeed
        totalPointsLoaded := some (data.map mapPointLoad).length
        sessionPointsCount := some (data.map mapPointLoad).length
        contextPointsCount := some 0
        hasDataMismatch :=
          some (data.find? fun p => p.timestamp == session.endTime).isNone
        mismatchDetails :=
          if (data.find? fun p => p.timestamp == session.endTime).isSome then none
          else some (mismatchMessage session (data.map mapPointLoad)) }) := by
  unfold loadPastSessionProcess
  rw [if_neg hl]

/-! ## Claim theorems -/

/-- C7: for all coordinate pairs `a` and `b`, `distanceMeters(a, b)` equals
`distanceMeters(b, a)`, and for every coordinate `a`, `distanceMeters(a, a)`
equals `0`. -/
theorem claim_C7_distance_symm_and_self :
    (∀ lat1 lon1 lat2 lon2 : ℝ,
      haversine lat1 lon1 lat2 lon2 = haversine lat2 lon2 lat1 lon1) ∧
    ∀ lat lon : ℝ, haversine lat lon lat lon = 0 := by
  refine ⟨fun lat1 lon1 lat2 lon2 => ?_, haversine_self⟩
  unfold haversine
  rw [haversineA_symm]

/-- C8: `distanceMeters` is pure and total — modelled as a total function on
`ℝ`, it returns the haversine distance on a sphere of radius 6 371 000 m
(third conjunct, the defining shape), the intermediate `a` always lies in
`[0, 1]` so both square roots receive in-domain arguments and the `atan2`
inverse-trig step (total by definition, unlike `asin`) raises no domain
error even at `a = 0` (near-zero distances), and the result is
nonnegative. -/
theorem claim_C8_haversine_total_and_safe (lat1 lon1 lat2 lon2 : ℝ) :
    0 ≤ haversineA lat1 lon1 lat2 lon2 ∧ haversineA lat1 lon1 lat2 lon2 ≤ 1 ∧
    haversine lat1 lon1 lat2 lon2 =
      6371000 * (2 * atan2 (Real.sqrt (haversineA lat1 lon1 lat2 lon2))
        (Real.sqrt (1 - haversineA lat1 lon1 lat2 lon2))) ∧
    0 ≤ haversine lat1 lon1 lat2 lon2 := by
  obtain ⟨h0, h1⟩ := haversineA_mem_unit lat1 lon1 lat2 lon2
  refine ⟨h0, h1, rfl, ?_⟩
  unfold haversine
  have h2 := atan2_nonneg (Real.sqrt_nonneg (haversineA lat1 lon1 lat2 lon2))
    (Real.sqrt_nonneg (1 - haversineA lat1 lon1 lat2 lon2))
  exact mul_nonneg (by norm_num) (mul_nonneg (by norm_num) h2)

/-- C1 is false as stated: for the concrete time-ordered two-point history
`cexData` (a moving fix at the origin, then a stopped fix at latitude 90),
`fetchHistory` produces a session summary whose `distance` is the
origin-to-pole haversine distance, while the sum of consecutive-fix
distances across the moving segments is `0` — so `SessionInfo.distance` is
not the moving-segments sum. -/
theorem claim_C1_counterexample :
    (fetchHistoryProcess cexData).2 = some (sessionInfoOf (cexData.map mapPoint)) ∧
    ¬ (sessionInfoOf (cexData.map mapPoint)).distance =
        movingZipDistance ((fetchHistoryProcess cexData).1) := by
  refine ⟨fetchHistoryProcess_snd_of_long (by norm_num [cexData]), ?_⟩
  rw [sessionInfoOf_distance, fetchHistoryProcess_fst]
  have h1 : sessionDistance (cexData.map mapPoint) = haversine 0 0 90 0 := by
    simp [sessionDistance, distLoop, cexData, mapPoint, itemMoving00, itemStopped90]
  have h2 : movingZipDistance (cexData.map mapPoint) = 0 := by
    simp +decide [movingZipDistance, zipPairSum, cexData, mapPoint, itemMoving00,
      itemStopped90, orMoving]
  rw [h1, h2, haversine_eval_ninety]
  intro hc
  have hpos : (0 : ℝ) < 6371000 * (Real.pi / 2) := by positivity
  linarith

/-- C1 (amended): for every session summary computed by `fetchHistory`, the
session's total distance (`SessionInfo.distance`) equals the sum of
consecutive-fix haversine distances over all consecutive pairs of the
returned point list — moving and stopped fixes alike, not only the moving
segments (the moving-only sum is computed separately and feeds only
`avgSpeed`). -/
theorem claim_C1_amended_distance_all_pairs (data : List HistoryApiItem)
    (info : SessionInfo) (h : (fetchHistoryProcess data).2 = some info) :
    info.distance = allZipDistance ((fetchHistoryProcess data).1) := by
  rw [fetchHistoryProcess_some h, sessionInfoOf_distance, sessionDistance_eq_zip,
    fetchHistoryProcess_fst]

/-- Witness for the amended C1 at the concrete history `cexData`. -/
theorem claim_C1_amended_witness :
    (fetchHistoryProcess cexData).2 = some (sessionInfoOf (cexData.map mapPoint)) ∧
    (sessionInfoOf (cexData.map mapPoint)).distance =
      allZipDistance ((fetchHistoryProcess cexData).1) := by
  have h : (fetchHistoryProcess cexData).2 =
      some (sessionInfoOf (cexData.map mapPoint)) :=
    fetchHistoryProcess_snd_of_long (by norm_num [cexData])
  exact ⟨h, claim_C1_amended_distance_all_pairs cexData _ h⟩

/-- C2: for every session summary computed by `fetchHistory`, `avgSpeed`
equals the moving distance (sum of consecutive-fix distances between
adjacent moving points) divided by the moving time, converted to km/h
(`(m / 1000) / (min / 60)`), when the moving time is positive, and equals
`0` when there is no (positive) moving time. -/
theorem claim_C2_avg_moving_speed (data : List HistoryApiItem)
    (info : SessionInfo) (h : (fetchHistoryProcess data).2 = some info) :
    (0 < info.movingTime →
      info.avgSpeed =
        (movingZipDistance (data.map mapPoint) / 1000) / (info.movingTime / 60)) ∧
    (¬ 0 < info.movingTime → info.avgSpeed = 0) := by
  rw [fetchHistoryProcess_some h, sessionInfoOf_movingTime, sessionInfoOf_avgSpeed]
  constructor
  · intro hm
    rw [if_pos hm, calcTimes_dist]
  · intro hm
    rw [if_neg hm]

/-- Witness for C2 at the concrete history `movData` (two moving fixes a
minute apart: moving time `1` minute, positive). -/
theorem claim_C2_witness :
    (fetchHistoryProcess movData).2 = some (sessionInfoOf (movData.map mapPoint)) ∧
    0 < (sessionInfoOf (movData.map mapPoint)).movingTime ∧
    (sessionInfoOf (movData.map mapPoint)).avgSpeed =
      (movingZipDistance (movData.map mapPoint) / 1000) /
        ((sessionInfoOf (movData.map mapPoint)).movingTime / 60) := by
  have h : (fetchHistoryProcess movData).2 =
      some (sessionInfoOf (movData.map mapPoint)) :=
    fetchHistoryProcess_snd_of_long (by norm_num [movData])
  have hm : (sessionInfoOf (movData.map mapPoint)).movingTime = 1 := by
    simp [sessionInfoOf, calcTimes, calcTimesAux, movData, mapPoint,
      itemMoving00, itemMoving60, orMoving, sdTruthy]
  have hpos : 0 < (sessionInfoOf (movData.map mapPoint)).movingTime := by
    rw [hm]
    norm_num
  exact ⟨h, hpos, (claim_C2_avg_moving_speed movData _ h).1 hpos⟩

/-- C6: for every session summary computed by `fetchHistory`, `stoppedTime`
is the sum (in minutes) of the stop durations of the stopped points (each
the cleaned single representative of one stopped segment), and
`movingTime` is the sum (in minutes) of the durations — last fix minus
first fix — of the maximal runs of consecutive moving points (the moving
segments). -/
theorem claim_C6_times_by_segment_type (data : List HistoryApiItem)
    (info : SessionInfo) (h : (fetchHistoryProcess data).2 = some info) :
    info.stoppedTime = stoppedSegmentsTime (data.map mapPoint) ∧
    info.movingTime = movingRunsTime (data.map mapPoint) := by
  rw [fetchHistoryProcess_some h, sessionInfoOf_stoppedTime, sessionInfoOf_movingTime]
  exact ⟨calcTimes_stopped _, (calcTimes_fst _).trans (movingZipTime_eq_runs _)⟩

/-- Witness for C6 at the concrete history `cexData`. -/
theorem claim_C6_witness :
    (fetchHistoryProcess cexData).2 = some (sessionInfoOf (cexData.map mapPoint)) ∧
    (sessionInfoOf (cexData.map mapPoint)).stoppedTime =
      stoppedSegmentsTime (cexData.map mapPoint) ∧
    (sessionInfoOf (cexData.map mapPoint)).movingTime =
      movingRunsTime (cexData.map mapPoint) := by
  have h : (fetchHistoryProcess cexData).2 =
      some (sessionInfoOf (cexData.map mapPoint)) :=
    fetchHistoryProcess_snd_of_long (by norm_num [cexData])
  obtain ⟨h1, h2⟩ := claim_C6_times_by_segment_type cexData _ h
  exact ⟨h, h1, h2⟩

/-- C9: for every history response with fewer than two points,
`fetchHistory` returns `sessionInfo = null` while still returning the
mapped point list. -/
theorem claim_C9_short_returns_points_no_summary (data : List HistoryApiItem)
    (h : data.length ≤ 1) :
    fetchHistoryProcess data = (data.map mapPoint, none) := by
  rw [fetchHistoryProcess_eq, if_neg]
  rw [List.length_map]
  omega

/-- Witness for C9 at a concrete one-point history. -/
theorem claim_C9_witness :
    ([itemUnlabeled] : List HistoryApiItem).length ≤ 1 ∧
    fetchHistoryProcess [itemUnlabeled] = ([mapPoint itemUnlabeled], none) := by
  have h : ([itemUnlabeled] : List HistoryApiItem).length ≤ 1 := by norm_num
  exact ⟨h, claim_C9_short_returns_points_no_summary [itemUnlabeled] h⟩

/-- C10: every point returned by `fetchHistory` and by `loadPastSession`
carries a `segment_type`: the returned labels are exactly the stored labels
with the missing (or empty) ones defaulted to `"moving"`, a record lacking
a label is returned labelled `"moving"`, and no returned point has an
empty label. -/
theorem claim_C10_every_point_labeled (data : List HistoryApiItem)
    (session : PastSession) :
    (fetchHistoryProcess data).1.map Location.segment_type =
        data.map (fun i => orMoving i.segment_type) ∧
    (∀ pts info, loadPastSessionProcess session data = Except.ok (pts, info) →
      pts.map Location.segment_type = data.map (fun i => orMoving i.segment_type)) ∧
    (∀ i : HistoryApiItem, i.segment_type = none →
      orMoving i.segment_type = "moving") ∧
    (∀ p ∈ (fetchHistoryProcess data).1, ¬ p.segment_type = "") ∧
    (∀ pts info, loadPastSessionProcess session data = Except.ok (pts, info) →
      ∀ p ∈ pts, ¬ p.segment_type = "") := by
  have hmap : (data.map mapPoint).map Location.segment_type =
      data.map (fun i => orMoving i.segment_type) := by
    rw [List.map_map]
    rfl
  have hmapL : (data.map mapPointLoad).map Location.segment_type =
      data.map (fun i => orMoving i.segment_type) := by
    rw [List.map_map]
    rfl
  refine ⟨by rw [fetchHistoryProcess_fst]; exact hmap,
    fun pts info hok => by rw [loadPastSessionProcess_ok hok]; exact hmapL,
    fun i hi => by rw [hi]; rfl, ?_, ?_⟩
  · intro p hp
    rw [fetchHistoryProcess_fst] at hp
    obtain ⟨i, _, rfl⟩ := List.mem_map.mp hp
    rw [mapPoint_segment]
    exact orMoving_ne_empty _
  · intro pts info hok p hp
    rw [loadPastSessionProcess_ok hok] at hp
    obtain ⟨i, _, rfl⟩ := List.mem_map.mp hp
    rw [mapPointLoad_segment]
    exact orMoving_ne_empty _

/-- Witness for C10: the loaded points of `wSession` over `cexData` carry
the defaulted labels, and an unlabelled record maps to `"moving"`. -/
theorem claim_C10_witness :
    (cexData.map mapPointLoad).map Location.segment_type =
      cexData.map (fun i => orMoving i.segment_type) ∧
    orMoving itemUnlabeled.segment_type = "moving" := by
  have hok : loadPastSessionProcess wSession cexData =
      Except.ok (cexData.map mapPointLoad, wLoadInfo) := rfl
  exact ⟨(claim_C10_every_point_labeled cexData wSession).2.1 _ _ hok,
    (claim_C10_every_point_labeled cexData wSession).2.2.1 itemUnlabeled rfl⟩

/-- C4 is false as stated: `loadPastSession`, given a response whose window
contains no fixes, fails with an error instead of returning an empty
list. -/
theorem claim_C4_counterexample :
    loadPastSessionProcess wSession [] =
      Except.error "No location data found for this session" := rfl

/-- C4 (amended): a scan that finds no sessions returns an empty list
without error — `fetchPastSessions` maps a 404 to `[]`, and an ok response
with an empty or missing `sessions` array to `[]` — and `fetchHistory`
over a window with no fixes returns an empty point list without error;
`loadPastSession`, however, fails with an error when its window contains
no fixes. -/
theorem claim_C4_amended_empty_results (r : ScanResponse) (s : PastSession) :
    (r.ok = false → r.status = 404 → fetchPastSessionsProcess r = Except.ok []) ∧
    (r.ok = true → r.sessions = some [] → fetchPastSessionsProcess r = Except.ok []) ∧
    (r.ok = true → r.sessions = none → fetchPastSessionsProcess r = Except.ok []) ∧
    fetchHistoryProcess [] = ([], none) ∧
    loadPastSessionProcess s [] =
      Except.error "No location data found for this session" := by
  refine ⟨?_, ?_, ?_, rfl, rfl⟩
  · intro h1 h2
    simp [fetchPastSessionsProcess, h1, h2]
  · intro h1 h2
    simp [fetchPastSessionsProcess, h1, h2]
  · intro h1 h2
    simp [fetchPastSessionsProcess, h1, h2]

/-- Witness for the amended C4 at a concrete 404 scan response and the
concrete session `wSession`. -/
theorem claim_C4_amended_witness :
    fetchPastSessionsProcess { ok := false, status := 404 } = Except.ok [] ∧
    fetchHistoryProcess [] = ([], none) ∧
    loadPastSessionProcess wSession [] =
      Except.error "No location data found for this session" := by
  obtain ⟨h1, _, _, h4, h5⟩ :=
    claim_C4_amended_empty_results { ok := false, status := 404 } wSession
  exact ⟨h1 rfl rfl, h4, h5⟩

/-- C5: for every loaded past session over a nonempty, strictly
time-ordered point list bounded by the saved end time, the computation
returns its best-effort result (the mapped points and the metadata-derived
summary); the result's `hasDataMismatch` warning is absent exactly when
the last retained fix agrees with the saved end time (the code's tolerance
is zero: an exact timestamp match), is present exactly when they disagree,
and the mismatch-details field accompanies the warning flag. -/
theorem claim_C5_mismatch_warning (session : PastSession)
    (data : List HistoryApiItem) (hne : data ≠ [])
    (hsorted : data.Pairwise fun a b => a.timestamp < b.timestamp)
    (hbound : ∀ p ∈ data, p.timestamp ≤ session.endTime) :
    ∃ info, loadPastSessionProcess session data =
        Except.ok (data.map mapPointLoad, info) ∧
      (info.hasDataMismatch = some false ↔ itemLastTs data = session.endTime) ∧
      (info.hasDataMismatch = some true ↔ ¬ itemLastTs data = session.endTime) ∧
      (info.mismatchDetails = none ↔ info.hasDataMismatch = some false) := by
  have hl : ¬ data.length = 0 := by simpa [List.length_eq_zero] using hne
  have hkey : (data.find? fun p => p.timestamp == session.endTime).isSome = true ↔
      itemLastTs data = session.endTime := by
    constructor
    · intro hS
      obtain ⟨p, hp, hpts⟩ := List.find?_isSome.mp hS
      have hpe : p.timestamp = session.endTime := by simpa using hpts
      obtain ⟨q, hq, hqts⟩ := itemLastTs_mem data hne
      have h1 : p.timestamp ≤ itemLastTs data := le_itemLastTs data hsorted p hp
      have h2 : itemLastTs data ≤ session.endTime := hqts ▸ hbound q hq
      omega
    · intro hE
      obtain ⟨q, hq, hqts⟩ := itemLastTs_mem data hne
      exact List.find?_isSome.mpr ⟨q, hq, by rw [hqts, hE]; exact beq_self_eq_true _⟩
  rw [loadPastSessionProcess_eq_of_ne hl]
  cases hFv : data.find? fun p => p.timestamp == session.endTime with
  | none =>
    have hne2 : ¬ itemLastTs data = session.endTime := by
      intro hE
      have hS := hkey.mpr hE
      rw [hFv] at hS
      simp at hS
    refine ⟨_, rfl, ?_, ?_, ?_⟩ <;> simp [hne2]
  | some v =>
    have hEq : itemLastTs data = session.endTime := hkey.mp (by rw [hFv]; rfl)
    refine ⟨_, rfl, ?_, ?_, ?_⟩ <;> simp [hEq]

/-- Witness for C5 at the saved session `wSession` (end time 60) over the
concrete history `cexData` (last fix at 60): no mismatch warning. -/
theorem claim_C5_witness :
    itemLastTs cexData = wSession.endTime ∧
    loadPastSessionProcess wSession cexData =
      Except.ok (cexData.map mapPointLoad, wLoadInfo) ∧
    wLoadInfo.hasDataMismatch = some false := by
  have hne : cexData ≠ [] := by simp [cexData]
  have hsorted : cexData.Pairwise fun a b => a.timestamp < b.timestamp := by
    norm_num [cexData, List.pairwise_cons, itemMoving00, itemStopped90]
  have hbound : ∀ p ∈ cexData, p.timestamp ≤ wSession.endTime := by
    intro p hp
    rcases (by simpa [cexData] using hp : p = itemMoving00 ∨ p = itemStopped90) with
      rfl | rfl <;> norm_num [itemMoving00, itemStopped90, wSession]
  obtain ⟨info, hok, hiff, _, _⟩ :=
    claim_C5_mismatch_warning wSession cexData hne hsorted hbound
  have hrfl : loadPastSessionProcess wSession cexData =
      Except.ok (cexData.map mapPointLoad, wLoadInfo) := rfl
  have hinfo : info = wLoadInfo := by
    have h1 := hrfl.symm.trans hok
    injection h1 with h2
    exact (congrArg Prod.snd h2).symm
  exact ⟨rfl, hrfl, hinfo ▸ hiff.mpr rfl⟩

/-- C3: whenever a candidate trip record's window overlaps an existing
record for the same vehicle, the (spec-modelled) backend save handler
leaves the store unchanged (no partial write) and answers with a conflict,
which `saveDriverLog` surfaces as a failure (`success = false`) carrying
the overlapping record's id. -/
theorem claim_C3_overlap_conflict (store : List TripRecord) (rec : TripRecord)
    (h : ∃ r ∈ store, r.vehicleId = rec.vehicleId ∧ overlapsB r rec = true) :
    (backendSaveTrip store rec).1 = store ∧
    (saveDriverLogProcess (backendSaveTrip store rec).2).success = false ∧
    ∃ r ∈ store, r.vehicleId = rec.vehicleId ∧ overlapsB r rec = true ∧
      (saveDriverLogProcess (backendSaveTrip store rec).2).overlappingId =
        some r.id := by
  obtain ⟨r0, hr0, hveh, hov⟩ := h
  have hfind : (store.find? fun r =>
      (r.vehicleId == rec.vehicleId) && overlapsB r rec).isSome :=
    List.find?_isSome.mpr ⟨r0, hr0, by simp [hveh, hov]⟩
  obtain ⟨r1, hr1⟩ := Option.isSome_iff_exists.mp hfind
  have hmem1 : r1 ∈ store := List.mem_of_find?_eq_some hr1
  have hp1 := List.find?_some hr1
  rw [Bool.and_eq_true] at hp1
  have hveh1 : r1.vehicleId = rec.vehicleId := by simpa using hp1.1
  unfold backendSaveTrip
  rw [hr1]
  exact ⟨rfl, rfl, r1, hmem1, hveh1, hp1.2, rfl⟩

/-- Witness for C3: saving `tripNew` (window `[50, 150]`) over the stored
`tripA` (same vehicle, window `[0, 100]`) leaves the store unchanged,
fails, and surfaces `tripA`'s id. -/
theorem claim_C3_witness :
    (backendSaveTrip [tripA] tripNew).1 = [tripA] ∧
    (saveDriverLogProcess (backendSaveTrip [tripA] tripNew).2).success = false ∧
    (saveDriverLogProcess (backendSaveTrip [tripA] tripNew).2).overlappingId =
      some "t1" := by
  obtain ⟨h1, h2, r, hr, _, _, hid⟩ := claim_C3_overlap_conflict [tripA] tripNew
    ⟨tripA, by simp, rfl, by decide⟩
  have hra : r = tripA := List.mem_singleton.mp hr
  rw [hra] at hid
  exact ⟨h1, h2, hid⟩

end LocTrack
